import Mathlib

/-
Verification development for the xfat FAT32 reader (src/xfat.c).

The source is a single C file targeting little-endian CPUs (stated in its
header comment).  Buffers are modelled as functions from byte offsets to
byte values (`Nat → Nat`, with `% 256` applied where the C dereferences a
`uint8_t`).  Machine integers are modelled as `Nat` with explicit `% 2 ^ w`
truncation where a C variable's declared width cuts a value down.

Several functions in src/xfat.c are present only as fragments (the body of
`get_dentry` after path splitting, the whole body of `xfat_readfile` after
the `get_dentry` call, and the function `fat_entry` are absent).  The
definitions covering those parts are modelled from the spec and carry a
doc comment beginning with `Modelled from the spec:`.  Every other
definition is a direct translation of the corresponding source function,
including its slips, which are noted in the comments.
-/

/-! ## Unaligned byte-buffer readers (src/xfat.c lines 115-142) -/

/-- read_byte from src: `*(volatile uint8_t *)(&buf[offset])`.  The `% 256`
models the `uint8_t` width of the buffer cells. -/
def read_byte (buf : Nat → Nat) (offset : Nat) : Nat :=
  buf offset % 256

/-- read_half from src.  The C picks between a byte-wise assembly
`read_byte(buf, offset) | read_byte(buf, offset + 1) << 8` (when the
address is not 4-aligned) and a raw aligned 16-bit load.  On the
little-endian CPUs the source requires, both branches produce the same
value on a byte buffer, so a single expression embeds both. -/
def read_half (buf : Nat → Nat) (offset : Nat) : Nat :=
  read_byte buf offset ||| (read_byte buf (offset + 1) <<< 8)

/-- read_word from src.  The C declares the result variable `ret` as
`uint16_t` (not `uint32_t`), so whichever branch runs, the value is
truncated to 16 bits before being returned; moreover the unaligned branch
reads `read_half(buf, offset)` twice (the second call uses `offset` again
instead of `offset + 2`).  The embedding reproduces the unaligned branch
including the duplicated offset, with `% 2 ^ 16` modelling the `uint16_t`
truncation; the aligned branch (a raw 32-bit load truncated to 16 bits)
yields the same value on a little-endian byte buffer. -/
def read_word (buf : Nat → Nat) (offset : Nat) : Nat :=
  (read_half buf offset ||| (read_half buf offset <<< 16)) % 2 ^ 16

/-! ## BPB parsing and validation (src/xfat.c lines 110-113, 172-223, 280-290) -/

/-- is_power_of_2 from src: `return v && !(v & (v - 1));`.  A C `int` result,
always 0 or 1, which matters because read_bpb compares it against 512. -/
def is_power_of_2 (v : Nat) : Nat :=
  if v ≠ 0 ∧ v &&& (v - 1) = 0 then 1 else 0

/-- Running copy of the on-disk BPB, as filled by the read_bpb_unit calls in
read_bpb.  Offsets are absolute within the boot sector: the source sets
`ptr = xfat.buffer + 0x0b` and reads each packed-struct member at its
struct offset from there.  The four 32-bit members are read through the
truncating `read_word` above, exactly as the source does. -/
structure xfat32_bpb where
  sector_sz : Nat
  cluster_sz : Nat
  nr_reserved : Nat
  nr_fats : Nat
  nr_dirents16 : Nat
  nr_sectors16 : Nat
  media_type : Nat
  fat_size16 : Nat
  track_size : Nat
  nr_heads : Nat
  nr_hidden : Nat
  nr_sectors : Nat
  fat_size : Nat
  flags : Nat
  version : Nat
  cluster_root : Nat
  fs_info : Nat
  boot_sector : Nat
  deriving DecidableEq

/-- Field extraction part of read_bpb (the read_bpb_unit call sequence). -/
def parse_bpb (buf : Nat → Nat) : xfat32_bpb where
  sector_sz := read_half buf 0x0b
  cluster_sz := read_byte buf 0x0d
  nr_reserved := read_half buf 0x0e
  nr_fats := read_byte buf 0x10
  nr_dirents16 := read_half buf 0x11
  nr_sectors16 := read_half buf 0x13
  media_type := read_byte buf 0x15
  fat_size16 := read_half buf 0x16
  track_size := read_half buf 0x18
  nr_heads := read_half buf 0x1a
  nr_hidden := read_word buf 0x1c
  nr_sectors := read_word buf 0x20
  fat_size := read_word buf 0x24
  flags := read_half buf 0x28
  version := read_half buf 0x2a
  cluster_root := read_word buf 0x2c
  fs_info := read_half buf 0x30
  boot_sector := read_half buf 0x32

/-- Label check from read_bpb: `memcmp(xfat.buffer + 0x52, "FAT32", 5) == 0`,
i.e. the five ASCII bytes of FAT32 in order. -/
def fat32_label_ok (buf : Nat → Nat) : Prop :=
  read_byte buf 0x52 = 0x46 ∧ read_byte buf 0x53 = 0x41 ∧
  read_byte buf 0x54 = 0x54 ∧ read_byte buf 0x55 = 0x33 ∧
  read_byte buf 0x56 = 0x32

instance (buf : Nat → Nat) : Decidable (fat32_label_ok buf) := by
  unfold fat32_label_ok; infer_instance

/-- Validation chain of read_bpb, applied to the boot-sector bytes (the
source first reads sector 0 through the Storage Provider; the bytes are
taken here as the input).  Each condition is transcribed as written,
including the two slips on which claims turn: the signature compare tests
the little-endian 16-bit load against the constant 0x55aa (a standard
boot sector holds 0x55 at 0x1fe and 0xaa at 0x1ff, which loads as
0xaa55), and the sector-size check compares the 0-or-1 result of
`is_power_of_2(bpb->sector_sz)` against 512, which can never be equal. -/
def read_bpb (buf : Nat → Nat) : Int :=
  if read_half buf 0x1fe ≠ 0x55aa then -1
  else if ¬ fat32_label_ok buf then -1
  else if is_power_of_2 (parse_bpb buf).sector_sz ≠ 512 then -1
  else if is_power_of_2 (parse_bpb buf).cluster_sz = 0 then -1
  else if (parse_bpb buf).nr_reserved < 1 then -1
  else if (parse_bpb buf).nr_fats ≠ 1 ∧ (parse_bpb buf).nr_fats ≠ 2 then -1
  else if (parse_bpb buf).media_type < 0xe5 then -1
  else if (parse_bpb buf).fat_size = 0 then -1
  else 0

/-- Geometry fields of `struct xfat` that a successful mount would commit.
No statement in src/xfat.c ever assigns any of them. -/
structure xfat_geom where
  root_cluster : Nat
  cluster_sz : Nat
  cluster_begins : Nat
  nr_fats : Nat
  data_sector : Nat
  sz_fat : Nat
  deriving DecidableEq

/-- Result marker for xfat_init: `err` is the early `return ret` on a
negative read_bpb; `fellOffEnd` records that on a successful read_bpb the
C function reaches its closing brace with no return statement and no
further assignments. -/
inductive InitResult where
  | err
  | fellOffEnd
  deriving DecidableEq

/-- xfat_init from src: stores the host and buffer pointers, calls
read_bpb, and returns its result when negative.  It contains no other
statements: the geometry argument is threaded through unchanged because
the source never writes any geometry field. -/
def xfat_init (buf : Nat → Nat) (g : xfat_geom) : InitResult × xfat_geom :=
  if read_bpb buf < 0 then (InitResult.err, g) else (InitResult.fellOffEnd, g)

/-! ## Claim-side well-formedness and defect predicates.

These follow the wording of the spec (section 4.1) rather than the code:
values are the little-endian integers stored at the documented offsets. -/

/-- Well-formed FAT32 boot sector in the sense of claim C1: standard
signature bytes, FAT32 label, 512-byte sectors, power-of-two cluster
size, at least one reserved sector, one or two FATs, media type in the
configured range, non-zero 32-bit sectors-per-FAT. -/
def bpb_claim_wellformed (buf : Nat → Nat) : Prop :=
  read_byte buf 0x1fe = 0x55 ∧ read_byte buf 0x1ff = 0xaa ∧
  fat32_label_ok buf ∧
  read_byte buf 0x0b + 0x100 * read_byte buf 0x0c = 512 ∧
  is_power_of_2 (read_byte buf 0x0d) = 1 ∧
  1 ≤ read_byte buf 0x0e + 0x100 * read_byte buf 0x0f ∧
  (read_byte buf 0x10 = 1 ∨ read_byte buf 0x10 = 2) ∧
  0xe5 ≤ read_byte buf 0x15 ∧
  read_byte buf 0x24 + 0x100 * read_byte buf 0x25 +
    0x10000 * read_byte buf 0x26 + 0x1000000 * read_byte buf 0x27 ≠ 0

instance (buf : Nat → Nat) : Decidable (bpb_claim_wellformed buf) := by
  unfold bpb_claim_wellformed; infer_instance

/-- Boot sector with wrong signature bytes (claim C2 defect class). -/
def bad_signature (buf : Nat → Nat) : Prop :=
  ¬ (read_byte buf 0x1fe = 0x55 ∧ read_byte buf 0x1ff = 0xaa)

/-- Boot sector with wrong FAT32 label (claim C2 defect class). -/
def bad_label (buf : Nat → Nat) : Prop := ¬ fat32_label_ok buf

/-- Boot sector whose bytes-per-sector field is not 512 (claim C2 defect class). -/
def bad_sector_size (buf : Nat → Nat) : Prop := (parse_bpb buf).sector_sz ≠ 512

/-- Boot sector whose sectors-per-cluster is not a power of two (claim C2 defect class). -/
def bad_cluster_size (buf : Nat → Nat) : Prop :=
  is_power_of_2 (parse_bpb buf).cluster_sz = 0

/-- Boot sector whose FAT count is outside the set of 1 and 2 (claim C2 defect class). -/
def bad_fat_count (buf : Nat → Nat) : Prop :=
  (parse_bpb buf).nr_fats ≠ 1 ∧ (parse_bpb buf).nr_fats ≠ 2

instance (buf : Nat → Nat) : Decidable (bad_signature buf) := by
  unfold bad_signature; infer_instance

instance (buf : Nat → Nat) : Decidable (bad_label buf) := by
  unfold bad_label; infer_instance

instance (buf : Nat → Nat) : Decidable (bad_sector_size buf) := by
  unfold bad_sector_size; infer_instance

instance (buf : Nat → Nat) : Decidable (bad_cluster_size buf) := by
  unfold bad_cluster_size; infer_instance

instance (buf : Nat → Nat) : Decidable (bad_fat_count buf) := by
  unfold bad_fat_count; infer_instance

/-- Boot sector satisfying every condition of claim C1: 512-byte sectors,
one sector per cluster, one reserved sector, two FATs, media type 0xf8,
one sector per FAT, FAT32 label, standard 55 aa signature. -/
def demoBpb : Nat → Nat := fun i =>
  if i = 0x0b then 0x00 else if i = 0x0c then 0x02
  else if i = 0x0d then 0x01
  else if i = 0x0e then 0x01 else if i = 0x0f then 0x00
  else if i = 0x10 then 0x02
  else if i = 0x15 then 0xf8
  else if i = 0x24 then 0x01
  else if i = 0x52 then 0x46 else if i = 0x53 then 0x41
  else if i = 0x54 then 0x54 else if i = 0x55 then 0x33
  else if i = 0x56 then 0x32
  else if i = 0x1fe then 0x55 else if i = 0x1ff then 0xaa
  else 0

/-- Boot sector of all zero bytes: wrong signature, wrong label, zero
sector size, zero cluster size, zero FAT count all at once. -/
def zeroBuf : Nat → Nat := fun _ => 0

/-- Arbitrary geometry record used to observe that xfat_init leaves the
geometry untouched. -/
def g0 : xfat_geom := ⟨0, 0, 0, 0, 0, 0⟩

/-- Byte buffer holding 0, 0, 0, 1 at offsets 0 to 3: its 32-bit
little-endian value at offset 0 is 0x01000000. -/
def bytes4 : Nat → Nat := fun i => if i = 3 then 1 else 0

/-! ## Sector cache (src/xfat.c lines 159-170) -/

/-- Outcome of one Storage Provider `read_sectors` call for a single
sector.  The provider writes into the host-owned buffer in either case:
`ok` carries the sector data on success, `fail` carries whatever the
failed call left in the buffer (the provider contract does not promise to
preserve it). -/
inductive ProviderResult where
  | ok (data : List Nat)
  | fail (garbage : List Nat)
  deriving DecidableEq

/-- Cache state of `struct xfat`: `cur_sector` is the sector number the
buffer currently holds, `buffer` the sector buffer contents. -/
structure CacheState where
  cur_sector : Int
  buffer : List Nat
  deriving DecidableEq

/-- Result of one read_sector call: the C return value, the state after
the call, and the number of provider reads issued (instrumentation for
the cache claims; the source issues the call exactly where `io_reads`
counts one). -/
structure ReadOutcome where
  ret : Int
  st : CacheState
  io_reads : Nat
  deriving DecidableEq

/-- read_sector from src.  On a hit (`cur_sector == sector`) it returns 0
with no provider call.  On a miss it issues exactly one one-sector
provider read; on success it sets `cur_sector = sector`, on failure it
returns -1 leaving `cur_sector` untouched (there is no invalidation in
the source).  The source line spells the call
`read_sectors(xgpt.host, xgpt.buffer, lba, 1)`; the only identifiers in
scope are `xfat.host`, `xfat.buffer` and the parameter `sector`, which is
how it is embedded. -/
def read_sector (provider : Int → ProviderResult) (st : CacheState)
    (sector : Int) : ReadOutcome :=
  if st.cur_sector = sector then ⟨0, st, 0⟩
  else
    match provider sector with
    | ProviderResult.ok d => ⟨0, ⟨sector, d⟩, 1⟩
    | ProviderResult.fail g => ⟨-1, ⟨st.cur_sector, g⟩, 1⟩

/-- Provider over a one-sector disk: sector 5 holds the byte 1; reading
any other sector fails, leaving the byte 9 in the buffer. -/
def provA : Int → ProviderResult := fun s =>
  if s = 5 then ProviderResult.ok [1] else ProviderResult.fail [9]

/-! ## Cluster classification and the chain walker
(src/xfat.c lines 229-232; the walker itself is absent from the source) -/

/-- valid_cluster from src.  The return expression is truncated in the
source (the closing parenthesis and semicolon are missing); read as
written it tests `clust >= 2 && clust <= 0xffffff`.  Note the upper bound
0xffffff, not the FAT32 bound 0x0fffffef. -/
def valid_cluster (clust : Nat) : Bool :=
  decide (2 ≤ clust ∧ clust ≤ 0xffffff)

/-- Error taxonomy of spec section 7.  The C draft returns -1 for every
failure; the distinct constructors follow the spec's classification. -/
inductive XErr where
  | ValidationError
  | IOError
  | NotFound
  | NotADirectory
  | OutOfRange
  | Corruption
  deriving DecidableEq

instance {ε α : Type} [DecidableEq ε] [DecidableEq α] : DecidableEq (Except ε α) := fun x y =>
  match x, y with
  | Except.ok a, Except.ok b =>
    if h : a = b then isTrue (by rw [h])
    else isFalse (by intro hc; cases hc; exact h rfl)
  | Except.error e, Except.error f =>
    if h : e = f then isTrue (by rw [h])
    else isFalse (by intro hc; cases hc; exact h rfl)
  | Except.ok _, Except.error _ => isFalse (by intro hc; cases hc)
  | Except.error _, Except.ok _ => isFalse (by intro hc; cases hc)

/-- Modelled from the spec: the FAT-entry lookup is absent from
src/xfat.c (`fat_entry` is called in get_dentry but defined nowhere).
Spec section 4.3: the 32-bit little-endian FAT entry for a cluster has
its upper 4 bits masked off, leaving a 28-bit cluster reference.  `fat`
gives the 32-bit entry value per cluster. -/
def fat_next (fat : Nat → Nat) (c : Nat) : Nat :=
  fat c &&& 0x0fffffff

/-- Classification of a masked FAT entry value, spec section 4.3. -/
inductive FatClass where
  | free
  | reservedc
  | nextc (c : Nat)
  | bad
  | eoc
  | reservedRange
  deriving DecidableEq

/-- Modelled from the spec: classification of the 28-bit value (spec
section 4.3): 0 free, 1 reserved, 2..0x0fffffef a normal next cluster,
0x0ffffff7 bad, at least 0x0ffffff8 end-of-chain; the remaining band
0x0ffffff0..0x0ffffff6 is reserved. -/
def classifyFat (v : Nat) : FatClass :=
  if v = 0 then FatClass.free
  else if v = 1 then FatClass.reservedc
  else if v ≤ 0x0fffffef then FatClass.nextc v
  else if v = 0x0ffffff7 then FatClass.bad
  else if 0x0ffffff8 ≤ v then FatClass.eoc
  else FatClass.reservedRange

/-- Iterated masked FAT lookup: the cluster reached after k steps from c. -/
def chainIter (fat : Nat → Nat) (c : Nat) : Nat → Nat
  | 0 => c
  | k + 1 => fat_next fat (chainIter fat c k)

/-- Modelled from the spec: the chain traversal loop is absent from
src/xfat.c.  Spec sections 4.3 and 9: traversal follows normal
next-cluster values, ends cleanly at an end-of-chain marker, fails with
Corruption on a bad or invalid reference, and its iteration count is
bounded (fuel; in the full system the bound is the volume's total cluster
count), so that corrupted FAT data cannot cause unbounded looping —
exceeding the bound is also reported as Corruption (spec section 7).
Returns the list of visited clusters on a clean end. -/
def walkChain (fat : Nat → Nat) : Nat → Nat → Except XErr (List Nat)
  | 0, _ => Except.error XErr.Corruption
  | fuel + 1, c =>
    match classifyFat (fat_next fat c) with
    | FatClass.nextc c2 =>
      match walkChain fat fuel c2 with
      | Except.ok rest => Except.ok (c :: rest)
      | Except.error e => Except.error e
    | FatClass.eoc => Except.ok [c]
    | _ => Except.error XErr.Corruption

/-- FAT containing a cycle: cluster 2 points to 3 and every other cluster
points back to 2, so the chain from 2 is 2, 3, 2, 3, ... -/
def fatLoop : Nat → Nat := fun i => if i = 2 then 3 else 2

/-! ## Path resolution (src/xfat.c lines 225-267; the directory scan is
absent from the source, only the component-splitting loop exists) -/

/-- is_delimeter from src: `c == '/' || c == '\\'` on path bytes. -/
def is_delimeter (c : Nat) : Bool :=
  decide (c = 0x2f ∨ c = 0x5c)

/-- Negated delimiter test, the guard of the component-extraction loop
`while (*e && !is_delimeter(*e)) e++;`. -/
def notDelim (c : Nat) : Bool := ! is_delimeter c

/-- Leading-delimiter skip of get_dentry:
`while (*s && is_delimeter(*s)) s++;`. -/
def skipDelims (p : List Nat) : List Nat := p.dropWhile is_delimeter

/-- Component extraction of get_dentry: the bytes from s up to the next
delimiter or the end of the path. -/
def takeComp (p : List Nat) : List Nat := p.takeWhile notDelim

/-- Remainder of the path after the extracted component. -/
def dropComp (p : List Nat) : List Nat := p.dropWhile notDelim

/-- ASCII upper-casing of one byte, the case-insensitive comparison step
of spec section 4.4. -/
def upByte (c : Nat) : Nat :=
  if 0x61 ≤ c ∧ c ≤ 0x7a then c - 0x20 else c

/-- Non-dot test used to split a path component into 8.3 base and
extension at its first dot. -/
def notDot (c : Nat) : Bool := ! decide (c = 0x2e)

/-- Base part of a component: the bytes before the first dot. -/
def base83 (comp : List Nat) : List Nat := comp.takeWhile notDot

/-- Extension part of a component: the bytes after the first dot. -/
def ext83 (comp : List Nat) : List Nat := (comp.dropWhile notDot).drop 1

/-- Space padding to the stored 8.3 field width. -/
def pad (n : Nat) (l : List Nat) : List Nat :=
  l ++ List.replicate (n - l.length) 0x20

/-- Directory entry record, the fields of `struct xfat32_dentry` that the
reader consumes: 8 name bytes, 3 extension bytes, the attribute byte, the
two cluster halves and the file size. -/
structure xfat_dentry where
  file_name : List Nat
  file_ext : List Nat
  file_attr : Nat
  clust_hi : Nat
  clust_lo : Nat
  file_size : Nat
  deriving DecidableEq

/-- Modelled from the spec: the name comparison of get_dentry is absent
from src/xfat.c.  Spec section 4.4: the component is compared
case-insensitively against the decoded 8.3 short name, name and extension
space-padded per format. -/
def match83 (comp : List Nat) (d : xfat_dentry) : Bool :=
  ((pad 8 (base83 comp)).map upByte == d.file_name.map upByte) &&
  ((pad 3 (ext83 comp)).map upByte == d.file_ext.map upByte)

/-- Abstract directory structure standing for the cluster chains of the
volume's directories: each directory is the list of its 32-byte entries
in scan order, each paired with the subtree its cluster number leads to
(ignored for non-directory entries). -/
inductive FsTree where
  | node : List (xfat_dentry × FsTree) → FsTree

/-- Modelled from the spec: the directory scan of get_dentry is absent
from src/xfat.c.  Spec section 4.4: scan entries in order, stop at the
first entry whose first byte is 0x00 (end-of-directory), skip entries
whose first byte is 0xe5 (deleted, FAT_DELETE_CHAR in the source) and
entries with attribute 0x0f (LFN continuation), and return the first
remaining entry whose 8.3 name matches the component. -/
def scanDir (comp : List Nat) : List (xfat_dentry × FsTree) →
    Option (xfat_dentry × FsTree)
  | [] => none
  | (d, t) :: rest =>
    if d.file_name.headD 0 = 0x00 then none
    else if d.file_name.headD 0 = 0xe5 then scanDir comp rest
    else if d.file_attr = 0x0f then scanDir comp rest
    else if match83 comp d then some (d, t)
    else scanDir comp rest

/-- Iterative resolution loop of get_dentry.  The component-splitting
steps (skip leading delimiters; return -1 if the path is exhausted;
extract the component up to the next delimiter) are translated from the
source loop at src/xfat.c lines 248-257; the per-component directory
lookup after them is modelled from spec section 4.4: on a match with
remaining components the entry must carry the directory attribute 0x10,
else NotADirectory; on a match with no remaining components the matched
entry is returned; no match is NotFound.  The fuel argument makes the
iteration explicitly bounded; `get_dentry` supplies enough fuel that it
never runs out, since every round consumes at least one path byte. -/
def resolveFrom : Nat → FsTree → List Nat → Except XErr xfat_dentry
  | 0, _, _ => Except.error XErr.Corruption
  | fuel + 1, FsTree.node entries, path =>
    if skipDelims path = [] then Except.error XErr.NotFound
    else
      match scanDir (takeComp (skipDelims path)) entries with
      | none => Except.error XErr.NotFound
      | some (d, child) =>
        if skipDelims (dropComp (skipDelims path)) = [] then Except.ok d
        else if d.file_attr &&& 0x10 = 0x10 then
          resolveFrom fuel child (dropComp (skipDelims path))
        else Except.error XErr.NotADirectory

/-- get_dentry: resolve a path against the directory structure rooted at
the volume's root cluster. -/
def get_dentry (root : FsTree) (path : List Nat) : Except XErr xfat_dentry :=
  resolveFrom (path.length + 1) root path

/-- Modelled from the spec: the body of xfat_readfile after the
get_dentry call is absent from src/xfat.c (the function ends with no
further statements).  Spec section 4.5: resolve the entry, validate
`offset + length ≤ entry.file_size` failing with OutOfRange (no silent
truncation), and on success return the count of bytes copied.  The copy
loop itself is not modelled; the success value is the full requested
length, as the spec's success case reports. -/
def xfat_readfile (root : FsTree) (path : List Nat) (offset len : Nat) :
    Except XErr Nat :=
  match get_dentry root path with
  | Except.error e => Except.error e
  | Except.ok d =>
    if offset + len ≤ d.file_size then Except.ok len
    else Except.error XErr.OutOfRange

/-! ## Concrete volume used by the witnesses -/

/-- Leaf tree: a directory with no entries (also used as the placeholder
subtree of plain files). -/
def leaf : FsTree := FsTree.node []

/-- Subdirectory DIR of the demo volume. -/
def dDIR : xfat_dentry :=
  ⟨[0x44, 0x49, 0x52, 0x20, 0x20, 0x20, 0x20, 0x20],
   [0x20, 0x20, 0x20], 0x10, 0, 3, 0⟩

/-- Live file FILE.TXT inside DIR, 5 bytes long. -/
def dFILE : xfat_dentry :=
  ⟨[0x46, 0x49, 0x4c, 0x45, 0x20, 0x20, 0x20, 0x20],
   [0x54, 0x58, 0x54], 0x20, 0, 5, 5⟩

/-- Deleted entry inside DIR: a former ?ILE.TXT whose first name byte was
overwritten with 0xe5, sitting before dFILE in scan order. -/
def dDEL : xfat_dentry :=
  ⟨[0xe5, 0x49, 0x4c, 0x45, 0x20, 0x20, 0x20, 0x20],
   [0x54, 0x58, 0x54], 0x20, 0, 6, 7⟩

/-- Demo volume: the root directory holds DIR, which holds the deleted
entry followed by FILE.TXT. -/
def demoTree : FsTree :=
  FsTree.node [(dDIR, FsTree.node [(dDEL, leaf), (dFILE, leaf)])]

/-- Path /DIR/FILE.TXT in upper case, as raw bytes. -/
def pathUpper : List Nat :=
  [0x2f, 0x44, 0x49, 0x52, 0x2f, 0x46, 0x49, 0x4c, 0x45, 0x2e, 0x54, 0x58, 0x54]

/-- Path /dir/file.txt, the lower-case variant of pathUpper. -/
def pathLower : List Nat :=
  [0x2f, 0x64, 0x69, 0x72, 0x2f, 0x66, 0x69, 0x6c, 0x65, 0x2e, 0x74, 0x78, 0x74]

/-- Path consisting only of delimiter bytes. -/
def pathDelims : List Nat := [0x2f, 0x5c, 0x2f]

/-- Path DIR without a leading delimiter, used to observe that leading
delimiters are skipped rather than treated as components. -/
def pathTail : List Nat := [0x44, 0x49, 0x52]

/-! ## Helper lemmas -/

/-- The C is_power_of_2 returns an int that is always 0 or 1. -/
theorem is_power_of_2_le_one (v : Nat) : is_power_of_2 v ≤ 1 := by
  unfold is_power_of_2; split <;> omega

/-- read_bpb rejects every boot sector: even when the (byte-swapped)
signature compare passes, the sector-size check compares the 0-or-1
result of is_power_of_2 with 512 and therefore always takes the error
branch. -/
theorem read_bpb_eq_neg_one (buf : Nat → Nat) : read_bpb buf = -1 := by
  unfold read_bpb
  have h := is_power_of_2_le_one (parse_bpb buf).sector_sz
  split_ifs <;> first | rfl | omega

/-! ## Claim theorems: mount and field readers -/

/-- Claim C1: the claim states that mount succeeds on every well-formed
512-byte-sector FAT32 boot sector and commits the derived geometry.  The
code does the opposite: read_bpb returns -1 on the exhibited boot sector
satisfying every well-formedness condition of the claim — indeed on every
buffer whatsoever, because the signature compare tests the little-endian
load against the byte-swapped constant and the sector-size check compares
the 0-or-1 result of is_power_of_2 with 512 — and no statement of the
source ever computes or commits a geometry field. -/
theorem mount_wellformed_rejected :
    bpb_claim_wellformed demoBpb ∧ read_bpb demoBpb = -1 ∧
    ∀ buf, read_bpb buf = -1 :=
  ⟨by decide, read_bpb_eq_neg_one demoBpb, read_bpb_eq_neg_one⟩

/-- Claim C2: mounting a boot sector with a wrong signature, wrong label,
non-512 sector size, non-power-of-two cluster size, or a FAT count
outside the set of 1 and 2 returns a validation error (-1, modelled as
InitResult.err) and leaves the geometry fields untouched.  This holds —
degenerately so, since read_bpb rejects every buffer (see
mount_wellformed_rejected), and xfat_init never assigns geometry. -/
theorem mount_rejects_malformed (buf : Nat → Nat) (g : xfat_geom)
    (h : bad_signature buf ∨ bad_label buf ∨ bad_sector_size buf ∨
      bad_cluster_size buf ∨ bad_fat_count buf) :
    xfat_init buf g = (InitResult.err, g) := by
  unfold xfat_init
  rw [read_bpb_eq_neg_one buf]
  norm_num

/-- Witness for mount_rejects_malformed: the all-zero boot sector has a
wrong signature (among every other defect) and mount rejects it without
touching the geometry. -/
theorem mount_rejects_malformed_witness :
    xfat_init zeroBuf g0 = (InitResult.err, g0) :=
  mount_rejects_malformed zeroBuf g0 (Or.inl (by decide))

/-- Claim C3: the claim states that read_word returns the 4-byte
little-endian value.  Evaluated at the failing input bytes4 (bytes 0, 0,
0, 1 at offsets 0 to 3), read_word returns 0 while the 4-byte
little-endian value is 0x01000000: the C declares its result variable as
uint16_t and its unaligned branch reads offset twice, so the upper 16
bits are always lost.  The read_half part of the claim does hold, as the
third conjunct shows at the same input. -/
theorem read_word_truncated_at_bytes4 :
    read_word bytes4 0 = 0 ∧
    bytes4 0 ||| (bytes4 1 <<< 8) ||| (bytes4 2 <<< 16) ||| (bytes4 3 <<< 24)
      = 0x01000000 ∧
    read_half bytes4 0 = bytes4 0 ||| (bytes4 1 <<< 8) := by
  decide

/-- Claim C6: the claim (with spec section 4.3) classifies every masked
value in 2..0x0fffffef as a normal next cluster.  The source's
valid_cluster — the only cluster-classification code present — rejects
0x01000000, which lies inside that range: its upper bound is 0xffffff,
not 0x0fffffef, and no masking, bad-cluster or end-of-chain handling
exists in the source (fat_entry is called but defined nowhere). -/
theorem valid_cluster_rejects_normal :
    valid_cluster 0x01000000 = false ∧
    2 ≤ 0x01000000 ∧ (0x01000000 : Nat) ≤ 0x0fffffef := by
  decide

/-! ## Claim theorems: sector cache -/

/-- Claim C4 counterexample: the claim states that a failed provider read
invalidates the cached index, making the buffer valid iff the cached
index equals the last successfully read sector.  Concretely: after a
successful read of sector 5 (contents the byte 1) and a failed read of
sector 7 that leaves the byte 9 in the buffer, read_sector returns -1
but the cached index still equals 5 — the last successfully read sector
— while the buffer no longer holds sector 5's contents, and a subsequent
read of sector 5 issues no provider I/O and happily returns the garbage
buffer as a success. -/
theorem read_sector_failure_keeps_cache_cex :
    (read_sector provA ⟨5, [1]⟩ 7).ret = -1 ∧
    (read_sector provA ⟨5, [1]⟩ 7).st.cur_sector = 5 ∧
    (read_sector provA ⟨5, [1]⟩ 7).st.buffer = [9] ∧
    provA 5 = ProviderResult.ok [1] ∧
    (read_sector provA ⟨5, [9]⟩ 5).io_reads = 0 ∧
    (read_sector provA ⟨5, [9]⟩ 5).ret = 0 ∧
    (read_sector provA ⟨5, [9]⟩ 5).st.buffer = [9] := by
  decide

/-- Claim C4 as amended: read(sector) issues no provider I/O when the
requested sector equals the cached index; otherwise it issues exactly one
one-sector provider read, committing the new index and data on success;
on a failed provider read it returns an I/O error (-1) leaving the cached
index unchanged — it is not invalidated — with the buffer holding
whatever the failed call left there. -/
theorem read_sector_cache_behavior (P : Int → ProviderResult)
    (st : CacheState) (s : Int) :
    (st.cur_sector = s → read_sector P st s = ⟨0, st, 0⟩) ∧
    (st.cur_sector ≠ s → (read_sector P st s).io_reads = 1 ∧
      (∀ d, P s = ProviderResult.ok d →
        read_sector P st s = ⟨0, ⟨s, d⟩, 1⟩) ∧
      (∀ g, P s = ProviderResult.fail g →
        read_sector P st s = ⟨-1, ⟨st.cur_sector, g⟩, 1⟩)) := by
  constructor
  · intro h; simp [read_sector, h]
  · intro h
    refine ⟨?_, ?_, ?_⟩
    · cases hP : P s <;> simp [read_sector, h, hP]
    · intro d hd; simp [read_sector, h, hd]
    · intro g hg; simp [read_sector, h, hg]

/-- Witness for read_sector_cache_behavior: a concrete hit with no I/O, a
concrete successful miss, and a concrete failed miss that keeps the old
cached index 3. -/
theorem read_sector_cache_behavior_witness :
    read_sector provA ⟨5, [1]⟩ 5 = ⟨0, ⟨5, [1]⟩, 0⟩ ∧
    read_sector provA ⟨3, []⟩ 5 = ⟨0, ⟨5, [1]⟩, 1⟩ ∧
    read_sector provA ⟨3, []⟩ 7 = ⟨-1, ⟨3, [9]⟩, 1⟩ :=
  ⟨(read_sector_cache_behavior provA ⟨5, [1]⟩ 5).1 rfl,
   ((read_sector_cache_behavior provA ⟨3, []⟩ 5).2 (by decide)).2.1 [1] rfl,
   ((read_sector_cache_behavior provA ⟨3, []⟩ 7).2 (by decide)).2.2 [9] rfl⟩

/-! ## Claim theorems: directory scan and path handling -/

/-- The directory scan never returns an entry whose first name byte is
the delete marker 0xe5: such entries are skipped before the name
comparison runs. -/
theorem scanDir_not_deleted {comp : List Nat} :
    ∀ {entries : List (xfat_dentry × FsTree)} {d : xfat_dentry} {t : FsTree},
      scanDir comp entries = some (d, t) → d.file_name.headD 0 ≠ 0xe5 := by
  intro entries
  induction entries with
  | nil => intro d t h; exact absurd h (by simp [scanDir])
  | cons e rest ih =>
    intro d t h
    obtain ⟨ed, et⟩ := e
    unfold scanDir at h
    split_ifs at h with h0 h5 hl hm
    · exact ih h
    · exact ih h
    · simp only [Option.some.injEq, Prod.mk.injEq] at h
      obtain ⟨rfl, rfl⟩ := h
      exact h5
    · exact ih h

/-- A successful resolution never yields a deleted entry, at any fuel. -/
theorem resolveFrom_ok_not_deleted :
    ∀ (fuel : Nat) (t : FsTree) (path : List Nat) (d : xfat_dentry),
      resolveFrom fuel t path = Except.ok d → d.file_name.headD 0 ≠ 0xe5 := by
  intro fuel
  induction fuel with
  | zero => intro t path d h; exact absurd h (by simp [resolveFrom])
  | succ n ih =>
    intro t path d h
    obtain ⟨entries⟩ := t
    unfold resolveFrom at h
    split_ifs at h with hp hrest
    · rcases hscan : scanDir (takeComp (skipDelims path)) entries with _ | ⟨d0, child⟩ <;>
        rw [hscan] at h
      · simp at h
      · simp at h
        subst h
        exact scanDir_not_deleted hscan
    · rcases hscan : scanDir (takeComp (skipDelims path)) entries with _ | ⟨d0, child⟩ <;>
        rw [hscan] at h
      · simp at h
      · simp only at h
        split_ifs at h with hattr
        exact ih child (dropComp (skipDelims path)) d h

/-- Claim C7: during resolution a directory entry whose first byte is
0xe5 (FAT_DELETE_CHAR) is never returned as a match — neither by the
per-component directory scan nor as the final result of get_dentry —
whatever its stored name. -/
theorem deleted_entries_never_match :
    (∀ (comp : List Nat) (entries : List (xfat_dentry × FsTree))
        (d : xfat_dentry) (t : FsTree),
      scanDir comp entries = some (d, t) → d.file_name.headD 0 ≠ 0xe5) ∧
    (∀ (root : FsTree) (path : List Nat) (d : xfat_dentry),
      get_dentry root path = Except.ok d → d.file_name.headD 0 ≠ 0xe5) :=
  ⟨fun _ _ _ _ h => scanDir_not_deleted h,
   fun root path d h => resolveFrom_ok_not_deleted _ root path d h⟩

/-- Witness for deleted_entries_never_match: resolving /DIR/FILE.TXT on
the demo volume walks past the deleted entry dDEL and returns the live
entry dFILE, whose first name byte is not 0xe5. -/
theorem deleted_entries_never_match_witness :
    get_dentry demoTree pathUpper = Except.ok dFILE ∧
    dFILE.file_name.headD 0 ≠ 0xe5 :=
  ⟨by decide, deleted_entries_never_match.2 demoTree pathUpper dFILE (by decide)⟩

/-- Skipping a block of leading delimiters is invisible to the
delimiter-skip loop of get_dentry. -/
theorem skipDelims_append (ds p : List Nat)
    (hall : ∀ c ∈ ds, is_delimeter c = true) :
    skipDelims (ds ++ p) = skipDelims p := by
  induction ds with
  | nil => rfl
  | cons c cs ih =>
    have hc := hall c (List.mem_cons_self c cs)
    unfold skipDelims at ih ⊢
    rw [List.cons_append, List.dropWhile_cons, hc]
    simp only [if_true]
    exact ih fun x hx => hall x (List.mem_cons_of_mem c hx)

/-- Claim C10: a path that is empty or consists only of delimiter bytes
makes get_dentry fail (return -1, an error) without matching anything,
because the skip loop exhausts the path and the `!(*s)` test fires; and
leading delimiters before a component are skipped rather than treated as
empty components: prepending any run of delimiters to a path leaves the
resolution loop's behavior unchanged at every fuel. -/
theorem delimiter_only_paths_fail :
    (∀ (root : FsTree) (path : List Nat),
      (∀ c ∈ path, is_delimeter c = true) →
      ∃ e, get_dentry root path = Except.error e) ∧
    (∀ (fuel : Nat) (t : FsTree) (ds p : List Nat),
      (∀ c ∈ ds, is_delimeter c = true) →
      resolveFrom fuel t (ds ++ p) = resolveFrom fuel t p) := by
  constructor
  · intro root path hall
    refine ⟨XErr.NotFound, ?_⟩
    obtain ⟨entries⟩ := root
    have hskip : skipDelims path = [] := by
      unfold skipDelims
      exact List.dropWhile_eq_nil_iff.mpr hall
    unfold get_dentry
    simp [resolveFrom, hskip]
  · intro fuel t ds p hall
    have hskip := skipDelims_append ds p hall
    cases fuel with
    | zero => rfl
    | succ n =>
      obtain ⟨entries⟩ := t
      simp only [resolveFrom, hskip]

/-- Witness for delimiter_only_paths_fail: the all-delimiter path fails
on the demo volume, and prepending two delimiters to the path DIR does
not change its resolution. -/
theorem delimiter_only_paths_fail_witness :
    (∃ e, get_dentry demoTree pathDelims = Except.error e) ∧
    resolveFrom 14 demoTree ([0x2f, 0x5c] ++ pathTail)
      = resolveFrom 14 demoTree pathTail :=
  ⟨delimiter_only_paths_fail.1 demoTree pathDelims (by decide),
   delimiter_only_paths_fail.2 14 demoTree [0x2f, 0x5c] pathTail (by decide)⟩

/-! ## Claim theorems: file reads and chain traversal -/

/-- Claim C5: for every resolved file and every requested offset and
length with offset + length exceeding the recorded file size, read_file
fails with OutOfRange; it never reports such a request as a success with
any byte count, so no truncated data is handed back. -/
theorem readfile_out_of_range (root : FsTree) (path : List Nat)
    (offset len : Nat) (d : xfat_dentry)
    (hres : get_dentry root path = Except.ok d)
    (hover : d.file_size < offset + len) :
    xfat_readfile root path offset len = Except.error XErr.OutOfRange ∧
    ∀ n, xfat_readfile root path offset len ≠ Except.ok n := by
  have hmain : xfat_readfile root path offset len
      = Except.error XErr.OutOfRange := by
    unfold xfat_readfile
    rw [hres]
    simp only
    rw [if_neg (by omega)]
  exact ⟨hmain, fun n => by rw [hmain]; simp⟩

/-- Witness for readfile_out_of_range: FILE.TXT on the demo volume holds
5 bytes; asking for 6 bytes from offset 0 fails with OutOfRange. -/
theorem readfile_out_of_range_witness :
    xfat_readfile demoTree pathUpper 0 6 = Except.error XErr.OutOfRange ∧
    ∀ n, xfat_readfile demoTree pathUpper 0 6 ≠ Except.ok n :=
  readfile_out_of_range demoTree pathUpper 0 6 dFILE (by decide) (by decide)

/-- Stepping the start of a chain iteration once shifts the index. -/
theorem chainIter_shift (fat : Nat → Nat) (c : Nat) :
    ∀ k, chainIter fat (fat_next fat c) k = chainIter fat c (k + 1) := by
  intro k
  induction k with
  | zero => rfl
  | succ n ih => simp [chainIter, ih]

/-- Claim C9: a FAT whose chain from a start cluster never leaves the
normal-next-cluster class — which is exactly what a chain containing a
cycle looks like to the walker, since a finite cluster space forces
revisits once no end-of-chain or invalid value is ever reached — makes
the bounded traversal return Corruption, for every iteration bound
(in particular the volume's total cluster count); and since walkChain is
structurally total, no traversal loops indefinitely. -/
theorem cyclic_chain_corruption (fat : Nat → Nat) (c : Nat) (fuel : Nat)
    (h : ∀ k, classifyFat (chainIter fat c (k + 1)) =
      FatClass.nextc (chainIter fat c (k + 1))) :
    walkChain fat fuel c = Except.error XErr.Corruption := by
  induction fuel generalizing c with
  | zero => rfl
  | succ n ih =>
    have h0 := h 0
    have e1 : chainIter fat c 1 = fat_next fat c := rfl
    rw [e1] at h0
    have hrec := ih (fat_next fat c) fun k => by
      rw [chainIter_shift]; exact h (k + 1)
    simp [walkChain, h0, hrec]

/-- Witness for cyclic_chain_corruption: fatLoop sends 2 to 3 and 3 back
to 2, so the chain from 2 is the cycle 2, 3, 2, 3, ... and the walker
reports Corruption at fuel 64. -/
theorem cyclic_chain_corruption_witness :
    walkChain fatLoop 64 2 = Except.error XErr.Corruption :=
  cyclic_chain_corruption fatLoop 2 64 (by
    have hv : ∀ k, chainIter fatLoop 2 k = 2 ∨ chainIter fatLoop 2 k = 3 := by
      intro k
      induction k with
      | zero => exact Or.inl rfl
      | succ n ih =>
        rcases ih with hh | hh
        · refine Or.inr ?_
          show fat_next fatLoop (chainIter fatLoop 2 n) = 3
          rw [hh]; rfl
        · refine Or.inl ?_
          show fat_next fatLoop (chainIter fatLoop 2 n) = 2
          rw [hh]; rfl
    intro k
    rcases hv (k + 1) with hh | hh <;> rw [hh] <;> rfl)

/-! ## Claim theorems: case-insensitive resolution -/

/-- Equality with a byte that is neither an upper- nor a lower-case ASCII
letter is invariant under upper-casing both sides. -/
theorem up_eq_target {a b t : Nat} (h : upByte a = upByte b)
    (hu : ¬ (0x41 ≤ t ∧ t ≤ 0x5a)) (hl : ¬ (0x61 ≤ t ∧ t ≤ 0x7a)) :
    a = t ↔ b = t := by
  unfold upByte at h
  split_ifs at h <;> omega

/-- Bytes equal up to ASCII case agree on being path delimiters. -/
theorem is_delim_congr {a b : Nat} (h : upByte a = upByte b) :
    is_delimeter a = is_delimeter b := by
  unfold is_delimeter
  exact decide_eq_decide.mpr (or_congr
    (up_eq_target h (by omega) (by omega))
    (up_eq_target h (by omega) (by omega)))

/-- Bytes equal up to ASCII case agree on being non-delimiters. -/
theorem notDelim_congr {a b : Nat} (h : upByte a = upByte b) :
    notDelim a = notDelim b := by
  unfold notDelim
  rw [is_delim_congr h]

/-- Bytes equal up to ASCII case agree on being dots. -/
theorem notDot_congr {a b : Nat} (h : upByte a = upByte b) :
    notDot a = notDot b := by
  unfold notDot
  rw [decide_eq_decide.mpr (up_eq_target h (by omega) (by omega))]

/-- takeWhile and dropWhile respect upper-cased equality of the input
lists whenever the predicate respects upper-cased byte equality. -/
theorem takeWhile_map_up {f : Nat → Bool}
    (hf : ∀ a b, upByte a = upByte b → f a = f b) :
    ∀ (p q : List Nat), p.map upByte = q.map upByte →
      (p.takeWhile f).map upByte = (q.takeWhile f).map upByte ∧
      (p.dropWhile f).map upByte = (q.dropWhile f).map upByte := by
  intro p
  induction p with
  | nil =>
    intro q h
    have hq : q = [] := by
      cases q with
      | nil => rfl
      | cons b bs => simp at h
    subst hq
    exact ⟨rfl, rfl⟩
  | cons a as ih =>
    intro q h
    cases q with
    | nil => simp at h
    | cons b bs =>
      simp only [List.map_cons, List.cons.injEq] at h
      obtain ⟨hab, hrest⟩ := h
      have hfab := hf a b hab
      rw [List.takeWhile_cons, List.takeWhile_cons,
          List.dropWhile_cons, List.dropWhile_cons, ← hfab]
      by_cases hfa : f a
      · simp only [if_pos hfa]
        obtain ⟨h1, h2⟩ := ih bs hrest
        constructor
        · simp only [List.map_cons, hab, h1]
        · exact h2
      · simp only [if_neg hfa]
        constructor
        · trivial
        · simp only [List.map_cons, hab, hrest]

/-- Space padding respects upper-cased equality (the pad byte 0x20 is
fixed by upByte and upper-cased equality preserves length). -/
theorem pad_map_up {n : Nat} {l1 l2 : List Nat}
    (h : l1.map upByte = l2.map upByte) :
    (pad n l1).map upByte = (pad n l2).map upByte := by
  have hlen : l1.length = l2.length := by
    have hh := congrArg List.length h
    simpa using hh
  unfold pad
  rw [List.map_append, List.map_append, h, hlen]

/-- The 8.3 name comparison cannot distinguish components equal up to
ASCII case. -/
theorem match83_congr {c1 c2 : List Nat}
    (h : c1.map upByte = c2.map upByte) (d : xfat_dentry) :
    match83 c1 d = match83 c2 d := by
  have hbase : (base83 c1).map upByte = (base83 c2).map upByte :=
    (takeWhile_map_up (fun a b hab => notDot_congr hab) c1 c2 h).1
  have hdrop : (c1.dropWhile notDot).map upByte
      = (c2.dropWhile notDot).map upByte :=
    (takeWhile_map_up (fun a b hab => notDot_congr hab) c1 c2 h).2
  have hext : (ext83 c1).map upByte = (ext83 c2).map upByte := by
    unfold ext83
    rw [List.map_drop, List.map_drop, hdrop]
  unfold match83
  rw [pad_map_up hbase, pad_map_up hext]

/-- The directory scan cannot distinguish components equal up to ASCII
case. -/
theorem scanDir_congr {c1 c2 : List Nat}
    (h : c1.map upByte = c2.map upByte) :
    ∀ entries, scanDir c1 entries = scanDir c2 entries := by
  intro entries
  induction entries with
  | nil => rfl
  | cons e rest ih =>
    obtain ⟨d, t⟩ := e
    unfold scanDir
    rw [match83_congr h d, ih]

/-- Lists equal up to upper-casing are empty together. -/
theorem map_up_nil_iff {p q : List Nat}
    (h : p.map upByte = q.map upByte) : p = [] ↔ q = [] := by
  constructor <;> intro hx <;> subst hx
  · have hh := h.symm
    simpa using hh
  · simpa using h

/-- The resolution loop cannot distinguish paths equal up to ASCII case,
at any fuel. -/
theorem resolveFrom_congr :
    ∀ (fuel : Nat) (t : FsTree) (p q : List Nat),
      p.map upByte = q.map upByte →
      resolveFrom fuel t p = resolveFrom fuel t q := by
  intro fuel
  induction fuel with
  | zero => intro t p q h; rfl
  | succ n ih =>
    intro t p q h
    obtain ⟨entries⟩ := t
    have hskip : (skipDelims p).map upByte = (skipDelims q).map upByte :=
      (takeWhile_map_up (fun a b hab => is_delim_congr hab) p q h).2
    have hnil := map_up_nil_iff hskip
    have hcomp : (takeComp (skipDelims p)).map upByte
        = (takeComp (skipDelims q)).map upByte :=
      (takeWhile_map_up (fun a b hab => notDelim_congr hab) _ _ hskip).1
    have hrest : (dropComp (skipDelims p)).map upByte
        = (dropComp (skipDelims q)).map upByte :=
      (takeWhile_map_up (fun a b hab => notDelim_congr hab) _ _ hskip).2
    have hrskip : (skipDelims (dropComp (skipDelims p))).map upByte
        = (skipDelims (dropComp (skipDelims q))).map upByte :=
      (takeWhile_map_up (fun a b hab => is_delim_congr hab) _ _ hrest).2
    have hrnil := map_up_nil_iff hrskip
    simp only [resolveFrom]
    rw [scanDir_congr hcomp entries]
    by_cases h0 : skipDelims p = []
    · rw [if_pos h0, if_pos (hnil.mp h0)]
    · rw [if_neg h0, if_neg fun hq => h0 (hnil.mpr hq)]
      rcases hscan : scanDir (takeComp (skipDelims q)) entries with _ | ⟨d, child⟩
      · rfl
      · simp only
        by_cases hr : skipDelims (dropComp (skipDelims p)) = []
        · rw [if_pos hr, if_pos (hrnil.mp hr)]
        · rw [if_neg hr, if_neg fun hq => hr (hrnil.mpr hq)]
          by_cases hattr : d.file_attr &&& 0x10 = 0x10
          · rw [if_pos hattr, if_pos hattr]
            exact ih child _ _ hrest
          · rw [if_neg hattr, if_neg hattr]

/-- Claim C8: path resolution is case-insensitive over short names: two
paths whose bytes agree after ASCII upper-casing (the same path with the
case of its letters changed) resolve to the same directory entry or to
the same error. -/
theorem resolution_case_insensitive (root : FsTree) (p q : List Nat)
    (h : p.map upByte = q.map upByte) :
    get_dentry root p = get_dentry root q := by
  unfold get_dentry
  have hlen : p.length = q.length := by
    have hh := congrArg List.length h
    simpa using hh
  rw [hlen]
  exact resolveFrom_congr (q.length + 1) root p q h

/-- Witness for resolution_case_insensitive: /DIR/FILE.TXT and
/dir/file.txt agree after upper-casing and resolve identically on the
demo volume, namely to the entry dFILE. -/
theorem resolution_case_insensitive_witness :
    pathUpper.map upByte = pathLower.map upByte ∧
    get_dentry demoTree pathUpper = get_dentry demoTree pathLower ∧
    get_dentry demoTree pathUpper = Except.ok dFILE :=
  ⟨by decide,
   resolution_case_insensitive demoTree pathUpper pathLower (by decide),
   by decide⟩
